import Mathlib

/-!
Shallow embedding of the pricing-calculator repository.

The embedded code comes from two source files:
* `src/app_flask.py` — class `PricingCalculator` with `parse_quantity` and
  `calculate_pricing`, plus the bulk row loop of the `upload_file` endpoint;
* `src/pricing_app/pricing_app.py` — class `PricingState` with its own
  `parse_quantity`.

Modelling conventions:
* Python floats are modelled as exact rationals (`ℚ`); the digit strings the
  parsers feed to `float(...)` always denote exact decimal values, so the
  rational semantics is the ideal arithmetic the code implements.  IEEE-754
  artefacts (overflow to infinity on astronomically long digit strings,
  binary representation error inside `round`) are outside this embedding.
* The regexes `(\d+)[x*](\d+(?:\.\d+)?)([a-z]*)`, `(\d+(?:\.\d+)?)([a-z]*)`
  and `^\d+(?:\.\d+)?$` are embedded as maximal-munch scanners over
  `List Char` that return the matched groups as character lists, exactly as
  `re.match` returns group strings; numeric conversion of a group (the
  `float(...)` calls) is a separate function, as in the source.  The regexes
  never need backtracking (each greedy class is character-disjoint from what
  can follow it), so maximal munch is exact.  The classes `\d` and `[a-z]`
  are modelled over their ASCII ranges.
* `re.match` anchors at the start only, so the scanners match a prefix and
  return the unconsumed rest.  In `^\d+(?:\.\d+)?$` the `$` also accepts the
  position just before a single trailing newline; the embedding keeps that.
* Python's `float(...)` builtin is modelled on the decimal fragment of its
  grammar (optional surrounding whitespace, sign, integer/fraction digits,
  optional exponent).  The `inf`/`nan` words and digit-group underscores are
  not representable in `ℚ` and are left out.
* Python's `round(x, n)` is modelled as round-half-to-even at `n` decimal
  places, on exact rationals.
-/

/-! ### Character helpers -/

/-- The regex class `\d`, over its ASCII range. -/
def isAsciiDigit (c : Char) : Bool := 48 ≤ c.toNat && c.toNat ≤ 57

/-- The regex class `[a-z]`. -/
def isAsciiLower (c : Char) : Bool := 97 ≤ c.toNat && c.toNat ≤ 122

/-- The whitespace set of Python `str.strip()` (ASCII part). -/
def isPySpace (c : Char) : Bool :=
  c.toNat = 32 || c.toNat = 9 || c.toNat = 10 || c.toNat = 13 || c.toNat = 11 || c.toNat = 12

/-- Numeric value of a digit string, as read by Python `int`/`float` on a
`\d+` match. -/
def digitsToNat (ds : List Char) : ℕ :=
  ds.foldl (fun a c => 10 * a + (c.toNat - 48)) 0

/-- `str.strip()`: drop leading and trailing whitespace. -/
def pyStrip (s : String) : String :=
  String.mk (((s.data.dropWhile isPySpace).reverse.dropWhile isPySpace).reverse)

/-- `str.lower()` (ASCII). -/
def pyLower (s : String) : String := String.mk (s.data.map Char.toLower)

/-- `quantity_str.replace(" ", "").lower()` — the normalisation both parsers
apply first (app_flask.py line 29, pricing_app.py line 31). -/
def normQ (cs : List Char) : List Char :=
  (cs.filter (fun c => c != ' ')).map Char.toLower

/-! ### Scanners for the three quantity regexes -/

/-- Scanner for a `(\d+)` group: the maximal leading digit run, and the
unconsumed rest.  `none` when there is no leading digit. -/
def scanInt (cs : List Char) : Option (List Char × List Char) :=
  let ds := cs.takeWhile isAsciiDigit
  if ds = [] then none else some (ds, cs.dropWhile isAsciiDigit)

/-- Scanner for a `(\d+(?:\.\d+)?)` group: maximal leading digits, then
optionally a dot followed by at least one digit (again maximal).  Returns
the pair (integer digits, fraction digits) and the unconsumed rest. -/
def scanDecimal (cs : List Char) : Option ((List Char × List Char) × List Char) :=
  let ds := cs.takeWhile isAsciiDigit
  let r1 := cs.dropWhile isAsciiDigit
  if ds = [] then none
  else
    match r1 with
    | c :: r2 =>
      if c = '.' then
        let fs := r2.takeWhile isAsciiDigit
        if fs = [] then some ((ds, []), r1)
        else some ((ds, fs), r2.dropWhile isAsciiDigit)
      else some ((ds, []), r1)
    | [] => some ((ds, []), [])

/-- `float(...)` applied to a matched `\d+(?:\.\d+)?` group, split as
(integer digits, fraction digits). -/
def groupVal (g : List Char × List Char) : ℚ :=
  (digitsToNat g.1 : ℚ) + (digitsToNat g.2 : ℚ) / 10 ^ g.2.length

/-- `re.match(r'^\d+(?:\.\d+)?$', s)` (app_flask.py line 32).  The final `$`
also matches just before a single trailing newline. -/
def isPureNumeric (cs : List Char) : Bool :=
  match scanDecimal cs with
  | some (_, r) => r.isEmpty || r == [Char.ofNat 10]
  | none => false

/-- `re.match(r'(\d+)[x*](\d+(?:\.\d+)?)([a-z]*)', s)` (app_flask.py line
37): count digits, amount group, unit letters, unconsumed rest. -/
def matchMult (cs : List Char) :
    Option (List Char × (List Char × List Char) × List Char × List Char) :=
  match scanInt cs with
  | none => none
  | some (count, r1) =>
    match r1 with
    | c :: r2 =>
      if c = 'x' ∨ c = '*' then
        match scanDecimal r2 with
        | none => none
        | some (amount, r3) =>
          some (count, amount, r3.takeWhile isAsciiLower, r3.dropWhile isAsciiLower)
      else none
    | [] => none

/-- `re.match(r'(\d+(?:\.\d+)?)([a-z]*)', s)` (app_flask.py line 52):
amount group, unit letters, unconsumed rest. -/
def matchSingle (cs : List Char) :
    Option ((List Char × List Char) × List Char × List Char) :=
  match scanDecimal cs with
  | none => none
  | some (amount, r) =>
    some (amount, r.takeWhile isAsciiLower, r.dropWhile isAsciiLower)

/-! ### Error messages of `PricingCalculator.parse_quantity` -/

/-- A single-quote character, for building the literal message texts. -/
def squo : String := String.singleton (Char.ofNat 39)

/-- app_flask.py lines 33 and 60. -/
def msgMissingUnit : String :=
  "Please specify the unit of measurement (kg, g, gm, mg, l, ml). Example: 400g, 1.2kg, 500mg, 2l, 250ml"

/-- app_flask.py line 46. -/
def msgMissingUnitMult : String :=
  "Please specify the unit of measurement. Example: 10x100g, 5x200mg, 3x1.5kg, 2x500ml"

/-- app_flask.py lines 62 and 81. -/
def msgInvalidFormat : String :=
  "Invalid quantity format. Use formats like " ++ squo ++ "10x100g" ++ squo ++
    ", " ++ squo ++ "400g" ++ squo ++ ", " ++ squo ++ "1.2kg" ++ squo ++
    ", " ++ squo ++ "500mg" ++ squo

/-- app_flask.py line 78 (an f-string naming the offending unit). -/
def msgUnsupportedUnit (unit : String) : String :=
  "Unsupported unit " ++ squo ++ unit ++ squo ++ ". Please use kg, g, gm, mg, l, or ml"

/-! ### The Flask parser (`PricingCalculator.parse_quantity`) -/

namespace PricingCalculator

/-- app_flask.py lines 64-78: the unit table, converting `total_weight` in
`unit` to grams, or reporting an unsupported unit. -/
def convertToGrams (total_weight : ℚ) (unit : String) : Option ℚ × String :=
  if unit ∈ ["kg", "kilogram", "kilograms"] then (some (total_weight * 1000), "")
  else if unit ∈ ["g", "gm", "gram", "grams"] then (some total_weight, "")
  else if unit ∈ ["mg", "milligram", "milligrams"] then (some (total_weight / 1000), "")
  else if unit ∈ ["l", "ltr", "litre", "litres", "liter", "liters"] then
    (some (total_weight * 1000), "")
  else if unit ∈ ["ml", "millilitre", "millilitres", "milliliter", "milliliters"] then
    (some total_weight, "")
  else (none, msgUnsupportedUnit unit)

/-- app_flask.py lines 31-78, after normalisation.  The `try/except` of
lines 26/80 is not a branch of the model: on `str` input the guarded calls
(`float` on a `\d+`-shaped group) cannot raise. -/
def parseNormed (cs : List Char) : Option ℚ × String :=
  if isPureNumeric cs then (none, msgMissingUnit)
  else
    match matchMult cs with
    | some (count, amount, unit, _) =>
      if unit = [] then (none, msgMissingUnitMult)
      else convertToGrams ((digitsToNat count : ℚ) * groupVal amount) (String.mk unit)
    | none =>
      match matchSingle cs with
      | some (amount, unit, _) =>
        if unit = [] then (none, msgMissingUnit)
        else convertToGrams (groupVal amount) (String.mk unit)
      | none => (none, msgInvalidFormat)

/-- `PricingCalculator.parse_quantity` (app_flask.py lines 24-81): returns
`(total_grams, error_message)`. -/
def parse_quantity (quantity_str : String) : Option ℚ × String :=
  parseNormed (normQ quantity_str.data)

end PricingCalculator

/-- Summary of the unit table of app_flask.py lines 64-78 as grams-per-unit
factors — the table of spec section 4.1. -/
def unitFactor (unit : String) : Option ℚ :=
  if unit ∈ ["kg", "kilogram", "kilograms"] then some 1000
  else if unit ∈ ["g", "gm", "gram", "grams"] then some 1
  else if unit ∈ ["mg", "milligram", "milligrams"] then some (1 / 1000)
  else if unit ∈ ["l", "ltr", "litre", "litres", "liter", "liters"] then some 1000
  else if unit ∈ ["ml", "millilitre", "millilitres", "milliliter", "milliliters"] then some 1
  else none

/-! ### The Reflex parser (`PricingState.parse_quantity`) -/

namespace PricingState

/-- pricing_app.py lines 53-61: its smaller unit table (no `gm`, no volume
units; the empty unit has already been defaulted to `"g"` by the caller,
and `""` also appears in the gram alias list). -/
def convertToGrams (total_weight : ℚ) (unit : String) : Option ℚ :=
  if unit ∈ ["kg", "kilogram", "kilograms"] then some (total_weight * 1000)
  else if unit ∈ ["g", "gram", "grams", ""] then some total_weight
  else if unit ∈ ["mg", "milligram", "milligrams"] then some (total_weight / 1000)
  else none

/-- pricing_app.py lines 31-61, after normalisation.  `unit =
match.group(3) or "g"` defaults an empty unit to grams. -/
def parseNormed (cs : List Char) : Option ℚ :=
  match matchMult cs with
  | some (count, amount, unit, _) =>
    convertToGrams ((digitsToNat count : ℚ) * groupVal amount)
      (if unit = [] then "g" else String.mk unit)
  | none =>
    match matchSingle cs with
    | some (amount, unit, _) =>
      convertToGrams (groupVal amount) (if unit = [] then "g" else String.mk unit)
    | none => none

/-- `PricingState.parse_quantity` (pricing_app.py lines 27-64): returns the
total grams, or `None`. -/
def parse_quantity (quantity_str : String) : Option ℚ :=
  parseNormed (normQ quantity_str.data)

end PricingState

/-! ### Python `float(...)` and `round(...)` -/

/-- The pieces of a string accepted by `float(...)`: sign, integer digits,
fraction digits, exponent sign and digits (empty when no exponent). -/
structure PyFloatParts where
  neg : Bool
  intDigits : List Char
  fracDigits : List Char
  expNeg : Bool
  expDigits : List Char
deriving DecidableEq

/-- Decimal fragment of the grammar of Python's `float(...)`: optional
whitespace, optional sign, `digits [. digits] | . digits`, optional
`e [sign] digits`.  Returns the pieces, or `none` when the string is not
accepted. -/
def pyFloatScan (s : String) : Option PyFloatParts :=
  let cs := ((s.data.dropWhile isPySpace).reverse.dropWhile isPySpace).reverse
  let signRest : Bool × List Char :=
    match cs with
    | c :: r => if c = '+' then (false, r) else if c = '-' then (true, r) else (false, c :: r)
    | [] => (false, [])
  let ds := signRest.2.takeWhile isAsciiDigit
  let r1 := signRest.2.dropWhile isAsciiDigit
  let fracRest : List Char × List Char :=
    match r1 with
    | c :: r => if c = '.' then (r.takeWhile isAsciiDigit, r.dropWhile isAsciiDigit) else ([], c :: r)
    | [] => ([], [])
  if ds = [] ∧ fracRest.1 = [] then none
  else
    match fracRest.2 with
    | [] => some ⟨signRest.1, ds, fracRest.1, false, []⟩
    | c :: r3 =>
      if c = 'e' ∨ c = 'E' then
        let expRest : Bool × List Char :=
          match r3 with
          | d :: r5 => if d = '+' then (false, r5) else if d = '-' then (true, r5) else (false, d :: r5)
          | [] => (false, [])
        let es := expRest.2.takeWhile isAsciiDigit
        if es = [] then none
        else if expRest.2.dropWhile isAsciiDigit = [] then
          some ⟨signRest.1, ds, fracRest.1, expRest.1, es⟩
        else none
      else none

/-- The rational value denoted by accepted `float(...)` input. -/
def partsVal (p : PyFloatParts) : ℚ :=
  let mantissa := (digitsToNat p.intDigits : ℚ) + (digitsToNat p.fracDigits : ℚ) / 10 ^ p.fracDigits.length
  let signed := if p.neg then -mantissa else mantissa
  let e : ℤ := if p.expNeg then -(digitsToNat p.expDigits : ℤ) else (digitsToNat p.expDigits : ℤ)
  signed * 10 ^ e

/-- Python's `float(...)` builtin on its decimal fragment (see the header
comment): the exact rational value, or `none` for a `ValueError`. -/
def pyFloat (s : String) : Option ℚ := (pyFloatScan s).map partsVal

/-- Round-half-to-even to an integer, the rounding mode of Python's
`round`. -/
def roundHalfEven (q : ℚ) : ℤ :=
  let f := ⌊q⌋
  if q - f < 1 / 2 then f
  else if 1 / 2 < q - f then f + 1
  else if f % 2 = 0 then f else f + 1

/-- Python's `round(x, ndigits)` on exact rationals. -/
def pyRound (q : ℚ) (ndigits : ℕ) : ℚ :=
  (roundHalfEven (q * 10 ^ ndigits) : ℚ) / 10 ^ ndigits

/-! ### `PricingCalculator.calculate_pricing` -/

/-- The `result["results"]` mapping on success (app_flask.py lines
125-129). -/
structure UnitPriceResult where
  kg : ℚ
  g : ℚ
  mg : ℚ
deriving DecidableEq

/-- The result dict of `calculate_pricing` (app_flask.py lines 86-91):
`results := none` models the empty dict `{}`. -/
structure PricingResult where
  success : Bool
  error : String
  results : Option UnitPriceResult
  ingredient_name : String
deriving DecidableEq

/-- An early-return failure value of `calculate_pricing`: `success` stays
`False`, `results` stays `{}`, only `error` is set. -/
def failureResult (ingredient_name msg : String) : PricingResult :=
  { success := false, error := msg, results := none, ingredient_name := ingredient_name }

namespace PricingCalculator

/-- `PricingCalculator.calculate_pricing` (app_flask.py lines 84-132). -/
def calculate_pricing (ingredient_name quantity_input price_input : String) : PricingResult :=
  if pyStrip ingredient_name = "" then
    failureResult ingredient_name "Please enter an ingredient name."
  else if pyStrip quantity_input = "" then
    failureResult ingredient_name "Please enter a quantity."
  else if pyStrip price_input = "" then
    failureResult ingredient_name "Please enter a price."
  else
    match pyFloat price_input with
    | none => failureResult ingredient_name "Please enter a valid price."
    | some price =>
      match parse_quantity quantity_input with
      | (none, parse_error) => failureResult ingredient_name parse_error
      | (some total_grams, _) =>
        if total_grams ≤ 0 then
          failureResult ingredient_name "Quantity must be greater than zero."
        else
          { success := true
            error := ""
            results := some
              { kg := pyRound (price / total_grams * 1000) 2
                g := pyRound (price / total_grams) 4
                mg := pyRound (price / total_grams / 1000) 6 }
            ingredient_name := ingredient_name }

end PricingCalculator

/-! ### The bulk row loop of the `upload_file` endpoint -/

/-- A spreadsheet cell as handed over by the tabular reader: a number, a
string, or a missing value (`NaN`, i.e. `pd.notna` is false). -/
inductive Cell where
  | num (q : ℚ)
  | str (s : String)
  | nan
deriving DecidableEq

/-- Whether a cell holds a string. -/
def Cell.isStr : Cell → Bool
  | Cell.str _ => true
  | _ => false

/-- One input row of the bulk upload (app_flask.py lines 192-195).  `name`
models `str(row[...])` of the first cell; `qty` is `none` for a `NaN`
quantity cell and otherwise `str(...)` of the cell; `price` is the raw
pricing cell. -/
structure Row where
  name : String
  qty : Option String
  price : Cell
deriving DecidableEq

/-- One outcome dict appended per row (app_flask.py lines 198-233).
`results` holds the numeric (per-kg, per-gram, per-mg) triple of the
success branch; the source renders these as `₹...` strings, which is
presentation only. -/
structure RowOutcome where
  ingredient_name : String
  quantity_input : String
  price_input : ℚ ⊕ String
  results : Option (ℚ × ℚ × ℚ)
  status : String
deriving DecidableEq

/-- One iteration of the row loop (app_flask.py lines 192-233).  An
`Except.error` models an uncaught Python exception: dividing a `str`
pricing cell by the parsed grams raises `TypeError`, which propagates out
of the loop to the catch-all handler of the endpoint. -/
def processRow (row : Row) : Except String RowOutcome :=
  let ingredient := pyStrip row.name
  let quantity := match row.qty with
    | some q => pyStrip q
    | none => ""
  let pricing : ℚ ⊕ String := match row.price with
    | Cell.num q => Sum.inl q
    | Cell.str s => Sum.inr s
    | Cell.nan => Sum.inl 0
  if quantity = "" ∨ pyLower quantity ∈ ["nan", "none", ""] then
    Except.ok
      { ingredient_name := ingredient, quantity_input := "Not provided",
        price_input := pricing, results := none,
        status := "Quantity was not provided, so pricing could not be calculated" }
  else
    match PricingCalculator.parse_quantity quantity with
    | (none, parse_error) =>
      Except.ok
        { ingredient_name := ingredient, quantity_input := quantity,
          price_input := pricing, results := none,
          status := "Error: " ++ parse_error }
    | (some total_grams, _) =>
      if 0 < total_grams then
        match pricing with
        | Sum.inl p =>
          Except.ok
            { ingredient_name := ingredient, quantity_input := quantity,
              price_input := pricing,
              results := some (p / total_grams * 1000, p / total_grams, p / total_grams / 1000),
              status := "Calculated successfully" }
        | Sum.inr _ =>
          Except.error "TypeError: unsupported operand type(s) for /: str and float"
      else
        Except.ok
          { ingredient_name := ingredient, quantity_input := quantity,
            price_input := pricing, results := some (0, 0, 0),
            status := "Calculated successfully" }

/-- The row loop: rows are processed in order and the first uncaught
exception aborts the whole batch (the endpoint then answers with a single
error, discarding all row outcomes). -/
def processRows : List Row → Except String (List RowOutcome)
  | [] => Except.ok []
  | r :: rs =>
    match processRow r with
    | Except.error e => Except.error e
    | Except.ok o =>
      match processRows rs with
      | Except.error e => Except.error e
      | Except.ok os => Except.ok (o :: os)

/-- `upload_file` after file reading and column validation (app_flask.py
lines 183-239): the 1000-row cap, then the row loop. -/
def upload_file (rows : List Row) : Except String (List RowOutcome) :=
  if 1000 < rows.length then
    Except.error "File contains more than 1000 items. Maximum allowed is 1000."
  else processRows rows

/-! ### Token shapes quantified over by the spec claims -/

/-- The optional fractional part of a written decimal: nothing, or a dot
followed by the fraction digits. -/
def fracPart (fs : List Char) : List Char := if fs = [] then [] else '.' :: fs

/-- A single-quantity token `<amount><unit>` followed by trailing text:
amount digits, optional fraction, unit letters, rest. -/
def singleToken (ds fs u t : List Char) : List Char := ds ++ (fracPart fs ++ (u ++ t))

/-- A multiplication token `<count><sep><amount><unit>` followed by
trailing text. -/
def multToken (cs : List Char) (sep : Char) (ds fs u t : List Char) : List Char :=
  cs ++ sep :: singleToken ds fs u t

/-- `true` when the list is empty or its head fails `p`. -/
def headNot (p : Char → Bool) (l : List Char) : Bool :=
  match l with
  | [] => true
  | c :: _ => !(p c)

/-- `true` when the list is empty or its head is neither a digit nor a
dot. -/
def headNotDigitDot (l : List Char) : Bool :=
  match l with
  | [] => true
  | c :: _ => !(isAsciiDigit c) && !(c == '.')

/-- `true` when the list is empty or its head is neither `x` nor `*`. -/
def headNotSep (l : List Char) : Bool :=
  match l with
  | [] => true
  | c :: _ => !(c == 'x') && !(c == '*')

/-- Hypothesis bundle for the digits of a written decimal: non-empty
integer digits; the fraction digits, when present, non-empty and digits. -/
def decimalDigitsOK (ds fs : List Char) : Prop :=
  ds ≠ [] ∧ (∀ c ∈ ds, isAsciiDigit c = true) ∧
    (fs = [] ∨ (fs ≠ [] ∧ ∀ c ∈ fs, isAsciiDigit c = true))

/-- Hypothesis bundle for a unit-letter run: non-empty lower-case letters. -/
def unitLettersOK (u : List Char) : Prop :=
  u ≠ [] ∧ ∀ c ∈ u, isAsciiLower c = true

/-- The 22 alias strings of the Flask unit table. -/
def allAliases : List String :=
  ["kg", "kilogram", "kilograms", "g", "gm", "gram", "grams", "mg", "milligram",
   "milligrams", "l", "ltr", "litre", "litres", "liter", "liters", "ml",
   "millilitre", "millilitres", "milliliter", "milliliters"]

/-- The nine explicit weight-unit aliases shared by both parsers. -/
def weightAliases : List String :=
  ["kg", "kilogram", "kilograms", "g", "gram", "grams", "mg", "milligram", "milligrams"]

/-! ### Character-class facts -/

theorem toLower_fixed {c : Char} (h : c.toNat < 65 ∨ 90 < c.toNat) : c.toLower = c := by
  unfold Char.toLower
  rw [if_neg]
  omega

theorem digit_toNat {c : Char} (h : isAsciiDigit c = true) :
    48 ≤ c.toNat ∧ c.toNat ≤ 57 := by
  simpa [isAsciiDigit, Bool.and_eq_true, decide_eq_true_eq] using h

theorem lower_toNat {c : Char} (h : isAsciiLower c = true) :
    97 ≤ c.toNat ∧ c.toNat ≤ 122 := by
  simpa [isAsciiLower, Bool.and_eq_true, decide_eq_true_eq] using h

theorem digit_facts {c : Char} (h : isAsciiDigit c = true) :
    c.toLower = c ∧ (c != ' ') = true ∧ isAsciiLower c = false ∧
      c ≠ '.' ∧ c ≠ 'x' ∧ c ≠ '*' ∧ c ≠ Char.ofNat 10 := by
  have hb := digit_toNat h
  refine ⟨toLower_fixed (by omega), ?_, ?_, ?_, ?_, ?_, ?_⟩
  · rw [bne_iff_ne]
    intro e
    subst e
    exact absurd h (by decide)
  · rw [Bool.eq_false_iff]
    intro hl
    have := lower_toNat hl
    omega
  · intro e
    subst e
    exact absurd h (by decide)
  · intro e
    subst e
    exact absurd h (by decide)
  · intro e
    subst e
    exact absurd h (by decide)
  · intro e
    subst e
    exact absurd h (by decide)

theorem lower_facts {c : Char} (h : isAsciiLower c = true) :
    c.toLower = c ∧ (c != ' ') = true ∧ isAsciiDigit c = false ∧ c ≠ '.' := by
  have hb := lower_toNat h
  refine ⟨toLower_fixed (by omega), ?_, ?_, ?_⟩
  · rw [bne_iff_ne]
    intro e
    subst e
    exact absurd h (by decide)
  · rw [Bool.eq_false_iff]
    intro hd
    have := digit_toNat hd
    omega
  · intro e
    subst e
    exact absurd h (by decide)

/-! ### Normalisation fixes space-free lower-case strings -/

theorem normQ_fixed {cs : List Char}
    (h : ∀ c ∈ cs, (c != ' ') = true ∧ c.toLower = c) : normQ cs = cs := by
  induction cs with
  | nil => rfl
  | cons a l ih =>
    obtain ⟨h1, h2⟩ := h a (by simp)
    have ih2 : normQ l = l := ih (fun c hc => h c (by simp [hc]))
    unfold normQ at ih2 ⊢
    rw [List.filter_cons, if_pos h1, List.map_cons, h2, ih2]

/-! ### Maximal-munch span facts -/

theorem span_append (p : Char → Bool) (l r : List Char)
    (hl : ∀ c ∈ l, p c = true) (hr : headNot p r = true) :
    (l ++ r).takeWhile p = l ∧ (l ++ r).dropWhile p = r := by
  induction l with
  | nil =>
    simp only [List.nil_append]
    cases r with
    | nil => simp
    | cons c t =>
      have hc : p c = false := by simpa [headNot] using hr
      constructor
      · simp [List.takeWhile_cons, hc]
      · simp [List.dropWhile_cons, hc]
  | cons a l ih =>
    have ha : p a = true := hl a (by simp)
    have ih2 := ih (fun c hc => hl c (by simp [hc]))
    simp only [List.cons_append, List.takeWhile_cons, List.dropWhile_cons, ha, if_true]
    simp [ih2.1, ih2.2]

theorem scanInt_append {ds r : List Char} (h1 : ds ≠ [])
    (h2 : ∀ c ∈ ds, isAsciiDigit c = true) (h3 : headNot isAsciiDigit r = true) :
    scanInt (ds ++ r) = some (ds, r) := by
  obtain ⟨ht, hd⟩ := span_append isAsciiDigit ds r h2 h3
  simp [scanInt, ht, hd, h1]

theorem scanDecimal_append_nofrac {ds r : List Char} (h1 : ds ≠ [])
    (h2 : ∀ c ∈ ds, isAsciiDigit c = true) (h3 : headNotDigitDot r = true) :
    scanDecimal (ds ++ r) = some ((ds, []), r) := by
  have h3d : headNot isAsciiDigit r = true := by
    cases r with
    | nil => rfl
    | cons c t =>
      simp only [headNotDigitDot, Bool.and_eq_true] at h3
      simpa [headNot] using h3.1
  obtain ⟨ht, hd⟩ := span_append isAsciiDigit ds r h2 h3d
  simp only [scanDecimal, ht, hd]
  rw [if_neg h1]
  cases r with
  | nil => rfl
  | cons c t =>
    have hc : ¬ (c = '.') := by
      simp only [headNotDigitDot, Bool.and_eq_true, Bool.not_eq_true', beq_eq_false_iff_ne,
        ne_eq] at h3
      exact h3.2
    show (if c = '.' then
        (if List.takeWhile isAsciiDigit t = [] then some ((ds, []), c :: t)
         else some ((ds, List.takeWhile isAsciiDigit t), List.dropWhile isAsciiDigit t))
      else some ((ds, []), c :: t)) = some ((ds, []), c :: t)
    rw [if_neg hc]

theorem scanDecimal_append_frac {ds fs r : List Char} (h1 : ds ≠ [])
    (h2 : ∀ c ∈ ds, isAsciiDigit c = true) (h4 : fs ≠ [])
    (h5 : ∀ c ∈ fs, isAsciiDigit c = true) (h6 : headNot isAsciiDigit r = true) :
    scanDecimal (ds ++ '.' :: (fs ++ r)) = some ((ds, fs), r) := by
  have hdot : headNot isAsciiDigit ('.' :: (fs ++ r)) = true := by
    show (!(isAsciiDigit '.')) = true
    decide
  obtain ⟨ht, hd⟩ := span_append isAsciiDigit ds _ h2 hdot
  obtain ⟨ht2, hd2⟩ := span_append isAsciiDigit fs r h5 h6
  simp only [scanDecimal, ht, hd, ht2, hd2]
  rw [if_neg h1]
  rw [if_pos trivial, if_neg h4]

/-! ### Matching the two regexes against a token followed by trailing text -/

theorem headNot_lower_of_unit {u t : List Char} (hu : unitLettersOK u) :
    headNotDigitDot (u ++ t) = true ∧ headNot isAsciiDigit (u ++ t) = true := by
  obtain ⟨hu1, hu2⟩ := hu
  cases u with
  | nil => exact absurd rfl hu1
  | cons c u2 =>
    have hc := lower_facts (hu2 c (by simp))
    constructor
    · show (!(isAsciiDigit c) && !(c == '.')) = true
      simp [hc.2.2.1, hc.2.2.2]
    · show (!(isAsciiDigit c)) = true
      simp [hc.2.2.1]

theorem scanDecimal_token {ds fs u t : List Char}
    (hd : decimalDigitsOK ds fs) (hu : unitLettersOK u) :
    scanDecimal (singleToken ds fs u t) = some ((ds, fs), u ++ t) := by
  obtain ⟨h1, h2, hfs⟩ := hd
  obtain ⟨hdd, hnd⟩ := headNot_lower_of_unit (t := t) hu
  rcases hfs with hfs | ⟨hfs1, hfs2⟩
  · subst hfs
    show scanDecimal (ds ++ ([] ++ (u ++ t))) = _
    rw [List.nil_append]
    exact scanDecimal_append_nofrac h1 h2 hdd
  · show scanDecimal (ds ++ (fracPart fs ++ (u ++ t))) = _
    rw [show fracPart fs = '.' :: fs from if_neg hfs1, List.cons_append]
    exact scanDecimal_append_frac h1 h2 hfs1 hfs2 hnd

theorem matchSingle_token {ds fs u t : List Char}
    (hd : decimalDigitsOK ds fs) (hu : unitLettersOK u)
    (ht : headNot isAsciiLower t = true) :
    matchSingle (singleToken ds fs u t) = some ((ds, fs), u, t) := by
  obtain ⟨ht2, hd2⟩ := span_append isAsciiLower u t hu.2 ht
  simp only [matchSingle, scanDecimal_token hd hu, ht2, hd2]

theorem matchMult_fail_of_token {ds fs u t : List Char}
    (hd : decimalDigitsOK ds fs) (hu : unitLettersOK u)
    (hsep : headNotSep (fracPart fs ++ (u ++ t)) = true) :
    matchMult (singleToken ds fs u t) = none := by
  obtain ⟨h1, h2, hfs⟩ := hd
  have hnd : headNot isAsciiDigit (fracPart fs ++ (u ++ t)) = true := by
    rcases hfs with hfs | ⟨hfs1, hfs2⟩
    · subst hfs
      rw [show fracPart ([] : List Char) = [] from rfl, List.nil_append]
      exact (headNot_lower_of_unit (t := t) hu).2
    · rw [show fracPart fs = '.' :: fs from if_neg hfs1, List.cons_append]
      show (!(isAsciiDigit '.')) = true
      decide
  obtain ⟨ht, hdw⟩ := span_append isAsciiDigit ds _ h2 hnd
  show matchMult (ds ++ (fracPart fs ++ (u ++ t))) = none
  simp only [matchMult, scanInt, ht, hdw]
  rw [if_neg h1]
  cases hr : fracPart fs ++ (u ++ t) with
  | nil =>
    exfalso
    rcases hfs with hfs | ⟨hfs1, _⟩
    · rw [hfs, show fracPart ([] : List Char) = [] from rfl, List.nil_append,
        List.append_eq_nil] at hr
      exact hu.1 hr.1
    · rw [show fracPart fs = '.' :: fs from if_neg hfs1] at hr
      simp at hr
  | cons c r2 =>
    have hcx : ¬ (c = 'x' ∨ c = '*') := by
      rw [hr] at hsep
      simp only [headNotSep, Bool.and_eq_true, Bool.not_eq_true', beq_eq_false_iff_ne,
        ne_eq] at hsep
      rintro (e | e)
      · exact hsep.1 e
      · exact hsep.2 e
    show (if c = 'x' ∨ c = '*' then
        (match scanDecimal r2 with
         | none => none
         | some (amount, r3) =>
           some (ds, amount, List.takeWhile isAsciiLower r3, List.dropWhile isAsciiLower r3))
      else none) = none
    rw [if_neg hcx]

theorem matchMult_token {cs ds fs u t : List Char} {sep : Char}
    (hcs1 : cs ≠ []) (hcs2 : ∀ c ∈ cs, isAsciiDigit c = true)
    (hsep : sep = 'x' ∨ sep = '*')
    (hd : decimalDigitsOK ds fs) (hu : unitLettersOK u)
    (ht : headNot isAsciiLower t = true) :
    matchMult (multToken cs sep ds fs u t) = some (cs, (ds, fs), u, t) := by
  have hnds : headNot isAsciiDigit (sep :: singleToken ds fs u t) = true := by
    show (!(isAsciiDigit sep)) = true
    rcases hsep with e | e <;> subst e <;> decide
  obtain ⟨htw, hdw⟩ := span_append isAsciiDigit cs _ hcs2 hnds
  obtain ⟨htu, hdu⟩ := span_append isAsciiLower u t hu.2 ht
  show matchMult (cs ++ sep :: singleToken ds fs u t) = _
  simp only [matchMult, scanInt, htw, hdw]
  rw [if_neg hcs1]
  show (if sep = 'x' ∨ sep = '*' then _ else none) = _
  rw [if_pos hsep, scanDecimal_token hd hu]
  simp only [htu, hdu]

/-! ### The pure-numeric check on tokens and on bare decimals -/

theorem isPureNumeric_of_rest {cs : List Char} {g : List Char × List Char} {c : Char}
    {r : List Char} (h : scanDecimal cs = some (g, c :: r)) (hc : c ≠ Char.ofNat 10) :
    isPureNumeric cs = false := by
  simp only [isPureNumeric, h, List.isEmpty_cons, Bool.false_or]
  cases r with
  | nil => simpa using hc
  | cons d r2 => simp

theorem isPureNumeric_token {ds fs u t : List Char}
    (hd : decimalDigitsOK ds fs) (hu : unitLettersOK u) :
    isPureNumeric (singleToken ds fs u t) = false := by
  have hscan := scanDecimal_token (t := t) hd hu
  cases hu2 : u with
  | nil => exact absurd hu2 hu.1
  | cons c u3 =>
    rw [hu2] at hscan
    refine isPureNumeric_of_rest (by simpa using hscan) ?_
    have := lower_toNat (hu.2 c (by rw [hu2]; simp))
    intro e
    rw [e] at this
    revert this
    decide

theorem isPureNumeric_multToken {cs ds fs u t : List Char} {sep : Char}
    (hcs1 : cs ≠ []) (hcs2 : ∀ c ∈ cs, isAsciiDigit c = true)
    (hsep : sep = 'x' ∨ sep = '*') :
    isPureNumeric (multToken cs sep ds fs u t) = false := by
  have hnds : headNotDigitDot (sep :: singleToken ds fs u t) = true := by
    show (!(isAsciiDigit sep) && !(sep == '.')) = true
    rcases hsep with e | e <;> subst e <;> decide
  have hscan := scanDecimal_append_nofrac hcs1 hcs2 hnds
  show isPureNumeric (cs ++ sep :: singleToken ds fs u t) = false
  refine isPureNumeric_of_rest hscan ?_
  rcases hsep with e | e <;> subst e <;> decide

theorem isPureNumeric_decimal {ds fs : List Char} (hd : decimalDigitsOK ds fs) :
    isPureNumeric (ds ++ fracPart fs) = true := by
  obtain ⟨h1, h2, hfs⟩ := hd
  rcases hfs with hfs | ⟨hfs1, hfs2⟩
  · rw [hfs, show fracPart ([] : List Char) = [] from rfl]
    have := scanDecimal_append_nofrac (r := []) h1 h2 rfl
    simp only [isPureNumeric, this, List.isEmpty_nil, Bool.true_or]
  · rw [show fracPart fs = '.' :: fs from if_neg hfs1]
    have := scanDecimal_append_frac (r := []) h1 h2 hfs1 hfs2 rfl
    rw [show ds ++ '.' :: fs = ds ++ '.' :: (fs ++ []) from by simp]
    simp only [isPureNumeric, this, List.isEmpty_nil, Bool.true_or]

/-! ### Branch lemmas for `PricingCalculator.parseNormed` -/

theorem parseNormed_pure {cs : List Char} (h : isPureNumeric cs = true) :
    PricingCalculator.parseNormed cs = (none, msgMissingUnit) := by
  simp [PricingCalculator.parseNormed, h]

theorem parseNormed_mult {cs count : List Char} {amount : List Char × List Char}
    {unit rest : List Char} (h0 : isPureNumeric cs = false)
    (h1 : matchMult cs = some (count, amount, unit, rest)) (h2 : unit ≠ []) :
    PricingCalculator.parseNormed cs =
      PricingCalculator.convertToGrams ((digitsToNat count : ℚ) * groupVal amount)
        (String.mk unit) := by
  simp [PricingCalculator.parseNormed, h0, h1, h2]

theorem parseNormed_mult_noUnit {cs count : List Char} {amount : List Char × List Char}
    {rest : List Char} (h0 : isPureNumeric cs = false)
    (h1 : matchMult cs = some (count, amount, [], rest)) :
    PricingCalculator.parseNormed cs = (none, msgMissingUnitMult) := by
  simp [PricingCalculator.parseNormed, h0, h1]

theorem parseNormed_single {cs : List Char} {amount : List Char × List Char}
    {unit rest : List Char} (h0 : isPureNumeric cs = false) (h1 : matchMult cs = none)
    (h2 : matchSingle cs = some (amount, unit, rest)) (h3 : unit ≠ []) :
    PricingCalculator.parseNormed cs =
      PricingCalculator.convertToGrams (groupVal amount) (String.mk unit) := by
  simp [PricingCalculator.parseNormed, h0, h1, h2, h3]

theorem parseNormed_single_noUnit {cs : List Char} {amount : List Char × List Char}
    {rest : List Char} (h0 : isPureNumeric cs = false) (h1 : matchMult cs = none)
    (h2 : matchSingle cs = some (amount, [], rest)) :
    PricingCalculator.parseNormed cs = (none, msgMissingUnit) := by
  simp [PricingCalculator.parseNormed, h0, h1, h2]

theorem parseNormed_invalid {cs : List Char} (h0 : isPureNumeric cs = false)
    (h1 : matchMult cs = none) (h2 : matchSingle cs = none) :
    PricingCalculator.parseNormed cs = (none, msgInvalidFormat) := by
  simp [PricingCalculator.parseNormed, h0, h1, h2]

/-! ### The unit table -/

theorem convertToGrams_factor {u : String} {f : ℚ} (h : unitFactor u = some f) (w : ℚ) :
    PricingCalculator.convertToGrams w u = (some (w * f), "") := by
  unfold unitFactor at h
  unfold PricingCalculator.convertToGrams
  split_ifs at h ⊢ <;>
    first
      | (injection h with h
         subst h
         simp [mul_one_div, div_eq_mul_inv])
      | exact absurd h (by simp)

theorem convertToGrams_unsupported {u : String} (h : unitFactor u = none) (w : ℚ) :
    PricingCalculator.convertToGrams w u = (none, msgUnsupportedUnit u) := by
  unfold unitFactor at h
  unfold PricingCalculator.convertToGrams
  split_ifs at h ⊢ <;> simp_all

theorem unitFactor_pos {u : String} {f : ℚ} (h : unitFactor u = some f) : 0 < f := by
  unfold unitFactor at h
  split_ifs at h <;>
    first
      | (injection h with h
         subst h
         norm_num)
      | exact absurd h (by simp)

theorem unitFactor_mem {u : String} {f : ℚ} (h : unitFactor u = some f) :
    u ∈ allAliases := by
  unfold unitFactor at h
  split_ifs at h with h1 h2 h3 h4 h5
  · simp only [List.mem_cons, List.not_mem_nil, or_false] at h1
    rcases h1 with e | e | e <;> subst e <;> decide
  · simp only [List.mem_cons, List.not_mem_nil, or_false] at h2
    rcases h2 with e | e | e | e <;> subst e <;> decide
  · simp only [List.mem_cons, List.not_mem_nil, or_false] at h3
    rcases h3 with e | e | e <;> subst e <;> decide
  · simp only [List.mem_cons, List.not_mem_nil, or_false] at h4
    rcases h4 with e | e | e | e | e | e <;> subst e <;> decide
  · simp only [List.mem_cons, List.not_mem_nil, or_false] at h5
    rcases h5 with e | e | e | e | e <;> subst e <;> decide
  all_goals exact absurd h (by simp)

/-- Shared character-level facts about every alias: non-empty, all
lower-case letters, fixed by normalisation, not starting with `x` or
`*`. -/
theorem alias_facts {u : String} (h : u ∈ allAliases) :
    u.data ≠ [] ∧ (∀ c ∈ u.data, isAsciiLower c = true) ∧
      headNotSep u.data = true := by
  fin_cases h <;> refine ⟨by decide, ?_, by decide⟩ <;> decide

/-! ### Branch lemmas for `PricingState.parseNormed` (the Reflex parser) -/

theorem reflexNormed_mult {cs count : List Char} {amount : List Char × List Char}
    {unit rest : List Char} (h1 : matchMult cs = some (count, amount, unit, rest))
    (h2 : unit ≠ []) :
    PricingState.parseNormed cs =
      PricingState.convertToGrams ((digitsToNat count : ℚ) * groupVal amount)
        (String.mk unit) := by
  simp [PricingState.parseNormed, h1, h2]

theorem reflexNormed_single {cs : List Char} {amount : List Char × List Char}
    {unit rest : List Char} (h1 : matchMult cs = none)
    (h2 : matchSingle cs = some (amount, unit, rest)) (h3 : unit ≠ []) :
    PricingState.parseNormed cs =
      PricingState.convertToGrams (groupVal amount) (String.mk unit) := by
  simp [PricingState.parseNormed, h1, h2, h3]

theorem weightAlias_sub {u : String} (h : u ∈ weightAliases) : u ∈ allAliases := by
  fin_cases h <;> decide

/-- On the nine weight aliases the two unit tables agree: both convert by
the same factor. -/
theorem reflex_flask_agree {u : String} (h : u ∈ weightAliases) (w : ℚ) :
    ∃ f, unitFactor u = some f ∧
      PricingState.convertToGrams w u = some (w * f) := by
  fin_cases h
  · exact ⟨1000, by decide, by rw [PricingState.convertToGrams, if_pos (by decide)]⟩
  · exact ⟨1000, by decide, by rw [PricingState.convertToGrams, if_pos (by decide)]⟩
  · exact ⟨1000, by decide, by rw [PricingState.convertToGrams, if_pos (by decide)]⟩
  · exact ⟨1, by decide, by
      rw [PricingState.convertToGrams, if_neg (by decide), if_pos (by decide), mul_one]⟩
  · exact ⟨1, by decide, by
      rw [PricingState.convertToGrams, if_neg (by decide), if_pos (by decide), mul_one]⟩
  · exact ⟨1, by decide, by
      rw [PricingState.convertToGrams, if_neg (by decide), if_pos (by decide), mul_one]⟩
  · exact ⟨1 / 1000, by
      rw [unitFactor, if_neg (by decide), if_neg (by decide), if_pos (by decide)], by
      rw [PricingState.convertToGrams, if_neg (by decide), if_neg (by decide),
        if_pos (by decide), mul_one_div]⟩
  · exact ⟨1 / 1000, by
      rw [unitFactor, if_neg (by decide), if_neg (by decide), if_pos (by decide)], by
      rw [PricingState.convertToGrams, if_neg (by decide), if_neg (by decide),
        if_pos (by decide), mul_one_div]⟩
  · exact ⟨1 / 1000, by
      rw [unitFactor, if_neg (by decide), if_neg (by decide), if_pos (by decide)], by
      rw [PricingState.convertToGrams, if_neg (by decide), if_neg (by decide),
        if_pos (by decide), mul_one_div]⟩

/-! ### Nonnegativity and message facts -/

theorem groupVal_nonneg (g : List Char × List Char) : 0 ≤ groupVal g := by
  unfold groupVal
  positivity

theorem string_ne_empty_of_data {s : String} (h : s.data ≠ []) : s ≠ "" := by
  intro e
  rw [e] at h
  exact h rfl

theorem msgUnsupportedUnit_ne (u : String) : msgUnsupportedUnit u ≠ "" := by
  refine string_ne_empty_of_data ?_
  unfold msgUnsupportedUnit
  simp only [String.data_append]
  intro e
  simp only [List.append_eq_nil] at e
  exact absurd e.1.1.1.1 (by decide)

/-- The unsupported-unit message names the offending unit: its character
data contains the unit's characters as a contiguous segment. -/
theorem msgUnsupportedUnit_names (u : String) :
    ∃ pre post, (msgUnsupportedUnit u).data = pre ++ (u.data ++ post) := by
  refine ⟨("Unsupported unit " ++ squo).data, (squo ++ ". Please use kg, g, gm, mg, l, or ml").data, ?_⟩
  unfold msgUnsupportedUnit
  simp only [String.data_append, List.append_assoc]

/-! ### Result-shape invariant of the Flask parser -/

theorem parseNormed_invariant (cs : List Char) :
    (∃ g, PricingCalculator.parseNormed cs = (some g, "") ∧ 0 ≤ g) ∨
      ((PricingCalculator.parseNormed cs).1 = none ∧
        (PricingCalculator.parseNormed cs).2 ≠ "") := by
  have convertCase : ∀ (w : ℚ) (u : List Char), 0 ≤ w →
      (∃ g, PricingCalculator.convertToGrams w (String.mk u) = (some g, "") ∧ 0 ≤ g) ∨
        ((PricingCalculator.convertToGrams w (String.mk u)).1 = none ∧
          (PricingCalculator.convertToGrams w (String.mk u)).2 ≠ "") := by
    intro w u hw
    cases hf : unitFactor (String.mk u) with
    | some f =>
      left
      refine ⟨w * f, convertToGrams_factor hf w, ?_⟩
      exact mul_nonneg hw (le_of_lt (unitFactor_pos hf))
    | none =>
      right
      rw [convertToGrams_unsupported hf w]
      exact ⟨rfl, msgUnsupportedUnit_ne _⟩
  by_cases hp : isPureNumeric cs = true
  · right
    rw [parseNormed_pure hp]
    exact ⟨rfl, by decide⟩
  · rw [Bool.not_eq_true] at hp
    cases hm : matchMult cs with
    | some v =>
      obtain ⟨count, amount, unit, rest⟩ := v
      by_cases hu : unit = []
      · right
        subst hu
        rw [parseNormed_mult_noUnit hp hm]
        exact ⟨rfl, by decide⟩
      · rw [parseNormed_mult hp hm hu]
        exact convertCase _ _ (mul_nonneg (Nat.cast_nonneg _) (groupVal_nonneg _))
    | none =>
      cases hs : matchSingle cs with
      | some v =>
        obtain ⟨amount, unit, rest⟩ := v
        by_cases hu : unit = []
        · right
          subst hu
          rw [parseNormed_single_noUnit hp hm hs]
          exact ⟨rfl, by decide⟩
        · rw [parseNormed_single hp hm hs hu]
          exact convertCase _ _ (groupVal_nonneg _)
      | none =>
        right
        rw [parseNormed_invalid hp hm hs]
        refine ⟨rfl, string_ne_empty_of_data ?_⟩
        unfold msgInvalidFormat
        simp only [String.data_append]
        intro e
        simp only [List.append_eq_nil] at e
        exact absurd e.1.1.1.1.1.1.1.1.1.1.1.1.1.1.1
          (by decide : ¬ ("Invalid quantity format. Use formats like ".data = []))

/-! ### Evaluating `pyRound` -/

theorem roundHalfEven_down {q : ℚ} {f : ℤ} (h1 : (f : ℚ) ≤ q) (h2 : q < f + 1 / 2) :
    roundHalfEven q = f := by
  have hf : ⌊q⌋ = f := Int.floor_eq_iff.mpr ⟨h1, by linarith⟩
  unfold roundHalfEven
  rw [hf, if_pos (by linarith)]

theorem pyRound_down {q : ℚ} {n : ℕ} {f : ℤ} (h1 : (f : ℚ) ≤ q * 10 ^ n)
    (h2 : q * 10 ^ n < f + 1 / 2) : pyRound q n = (f : ℚ) / 10 ^ n := by
  unfold pyRound
  rw [roundHalfEven_down h1 h2]


/-! ### Branch lemmas for `calculate_pricing` -/

theorem calc_blank_name {n q p : String} (h : pyStrip n = "") :
    PricingCalculator.calculate_pricing n q p =
      failureResult n "Please enter an ingredient name." := by
  simp [PricingCalculator.calculate_pricing, h]

theorem calc_blank_qty {n q p : String} (h1 : pyStrip n ≠ "") (h2 : pyStrip q = "") :
    PricingCalculator.calculate_pricing n q p =
      failureResult n "Please enter a quantity." := by
  simp [PricingCalculator.calculate_pricing, h1, h2]

theorem calc_blank_price {n q p : String} (h1 : pyStrip n ≠ "") (h2 : pyStrip q ≠ "")
    (h3 : pyStrip p = "") :
    PricingCalculator.calculate_pricing n q p =
      failureResult n "Please enter a price." := by
  simp [PricingCalculator.calculate_pricing, h1, h2, h3]

theorem calc_bad_price {n q p : String} (h1 : pyStrip n ≠ "") (h2 : pyStrip q ≠ "")
    (h3 : pyStrip p ≠ "") (h4 : pyFloat p = none) :
    PricingCalculator.calculate_pricing n q p =
      failureResult n "Please enter a valid price." := by
  simp [PricingCalculator.calculate_pricing, h1, h2, h3, h4]

theorem calc_parse_error {n q p e : String} {pr : ℚ} (h1 : pyStrip n ≠ "")
    (h2 : pyStrip q ≠ "") (h3 : pyStrip p ≠ "") (h4 : pyFloat p = some pr)
    (h5 : PricingCalculator.parse_quantity q = (none, e)) :
    PricingCalculator.calculate_pricing n q p = failureResult n e := by
  simp [PricingCalculator.calculate_pricing, h1, h2, h3, h4, h5]

theorem calc_nonpos {n q p e : String} {pr m : ℚ} (h1 : pyStrip n ≠ "")
    (h2 : pyStrip q ≠ "") (h3 : pyStrip p ≠ "") (h4 : pyFloat p = some pr)
    (h5 : PricingCalculator.parse_quantity q = (some m, e)) (h6 : m ≤ 0) :
    PricingCalculator.calculate_pricing n q p =
      failureResult n "Quantity must be greater than zero." := by
  simp [PricingCalculator.calculate_pricing, h1, h2, h3, h4, h5, h6]

theorem calc_success {n q p e : String} {pr m : ℚ} (h1 : pyStrip n ≠ "")
    (h2 : pyStrip q ≠ "") (h3 : pyStrip p ≠ "") (h4 : pyFloat p = some pr)
    (h5 : PricingCalculator.parse_quantity q = (some m, e)) (h6 : 0 < m) :
    PricingCalculator.calculate_pricing n q p =
      { success := true
        error := ""
        results := some
          { kg := pyRound (pr / m * 1000) 2
            g := pyRound (pr / m) 4
            mg := pyRound (pr / m / 1000) 6 }
        ingredient_name := n } := by
  simp [PricingCalculator.calculate_pricing, h1, h2, h3, h4, h5, not_le.mpr h6]

/-! ### Parsing well-formed tokens -/

theorem mem_fracPart {c : Char} {fs : List Char} (h : c ∈ fracPart fs) :
    c = '.' ∨ c ∈ fs := by
  unfold fracPart at h
  split at h
  · simp at h
  · rw [List.mem_cons] at h
    exact h

theorem normQ_token_fixed {l : List Char}
    (h : ∀ c ∈ l, isAsciiDigit c = true ∨ isAsciiLower c = true ∨ c = '.' ∨ c = 'x' ∨ c = '*') :
    normQ l = l := by
  refine normQ_fixed ?_
  intro c hc
  rcases h c hc with h | h | h | h | h
  · exact ⟨(digit_facts h).2.1, (digit_facts h).1⟩
  · exact ⟨(lower_facts h).2.1, (lower_facts h).1⟩
  · subst h
    exact ⟨by decide, by decide⟩
  · subst h
    exact ⟨by decide, by decide⟩
  · subst h
    exact ⟨by decide, by decide⟩

theorem singleToken_classes {ds fs u t : List Char}
    (hd : decimalDigitsOK ds fs) (hlow : ∀ c ∈ u, isAsciiLower c = true)
    (htc : ∀ c ∈ t, isAsciiDigit c = true ∨ isAsciiLower c = true ∨ c = '.' ∨ c = 'x' ∨ c = '*') :
    ∀ c ∈ singleToken ds fs u t,
      isAsciiDigit c = true ∨ isAsciiLower c = true ∨ c = '.' ∨ c = 'x' ∨ c = '*' := by
  intro c hc
  unfold singleToken at hc
  simp only [List.mem_append] at hc
  rcases hc with hc | hc | hc | hc
  · exact Or.inl (hd.2.1 c hc)
  · rcases mem_fracPart hc with e | hc
    · exact Or.inr (Or.inr (Or.inl e))
    · rcases hd.2.2 with e | ⟨_, hfs⟩
      · rw [e] at hc
        simp at hc
      · exact Or.inl (hfs c hc)
  · exact Or.inr (Or.inl (hlow c hc))
  · exact htc c hc

/-- The unit letters of a table alias, viewed as a character list. -/
theorem aliasData_facts {u : String} (h : u ∈ allAliases) :
    unitLettersOK u.data ∧ headNotSep u.data = true := by
  obtain ⟨h1, h2, h3⟩ := alias_facts h
  exact ⟨⟨h1, h2⟩, h3⟩

theorem headNotSep_token {fs u t : List Char} (hu : unitLettersOK u)
    (hsepu : headNotSep u = true) :
    headNotSep (fracPart fs ++ (u ++ t)) = true := by
  by_cases hfs : fs = []
  · rw [hfs, show fracPart ([] : List Char) = [] from rfl, List.nil_append]
    cases u with
    | nil => exact absurd rfl hu.1
    | cons c u2 => exact hsepu
  · rw [show fracPart fs = '.' :: fs from if_neg hfs, List.cons_append]
    show (!('.' == 'x') && !('.' == '*')) = true
    decide

/-- Parsing a normalised single-quantity token whose unit is a table
alias: the Flask parser reaches the unit table with the token's decimal
value. -/
theorem parseNormed_singleToken {ds fs t : List Char} {u : String}
    (hd : decimalDigitsOK ds fs) (huA : u ∈ allAliases)
    (ht : headNot isAsciiLower t = true) :
    PricingCalculator.parseNormed (singleToken ds fs u.data t) =
      PricingCalculator.convertToGrams (groupVal (ds, fs)) u := by
  obtain ⟨hu, hsepu⟩ := aliasData_facts huA
  have hp := isPureNumeric_token (t := t) hd hu
  have hm := matchMult_fail_of_token (t := t) hd hu (headNotSep_token hu hsepu)
  have hs := matchSingle_token (t := t) hd hu ht
  rw [parseNormed_single hp hm hs hu.1]

/-- Parsing a normalised multiplication token whose unit is a table
alias. -/
theorem parseNormed_multToken {cs ds fs t : List Char} {sep : Char} {u : String}
    (hcs1 : cs ≠ []) (hcs2 : ∀ c ∈ cs, isAsciiDigit c = true)
    (hsep : sep = 'x' ∨ sep = '*') (hd : decimalDigitsOK ds fs)
    (huA : u ∈ allAliases) (ht : headNot isAsciiLower t = true) :
    PricingCalculator.parseNormed (multToken cs sep ds fs u.data t) =
      PricingCalculator.convertToGrams ((digitsToNat cs : ℚ) * groupVal (ds, fs)) u := by
  obtain ⟨hu, _⟩ := aliasData_facts huA
  have hp := @isPureNumeric_multToken cs ds fs u.data t sep hcs1 hcs2 hsep
  have hm := matchMult_token hcs1 hcs2 hsep hd hu ht
  rw [parseNormed_mult hp hm hu.1]

/-- Reflex-parser analogues. -/
theorem reflexNormed_singleToken {ds fs t : List Char} {u : String}
    (hd : decimalDigitsOK ds fs) (huA : u ∈ allAliases)
    (ht : headNot isAsciiLower t = true) :
    PricingState.parseNormed (singleToken ds fs u.data t) =
      PricingState.convertToGrams (groupVal (ds, fs)) u := by
  obtain ⟨hu, hsepu⟩ := aliasData_facts huA
  have hm := matchMult_fail_of_token (t := t) hd hu (headNotSep_token hu hsepu)
  have hs := matchSingle_token (t := t) hd hu ht
  rw [reflexNormed_single hm hs hu.1]

theorem reflexNormed_multToken {cs ds fs t : List Char} {sep : Char} {u : String}
    (hcs1 : cs ≠ []) (hcs2 : ∀ c ∈ cs, isAsciiDigit c = true)
    (hsep : sep = 'x' ∨ sep = '*') (hd : decimalDigitsOK ds fs)
    (huA : u ∈ allAliases) (ht : headNot isAsciiLower t = true) :
    PricingState.parseNormed (multToken cs sep ds fs u.data t) =
      PricingState.convertToGrams ((digitsToNat cs : ℚ) * groupVal (ds, fs)) u := by
  obtain ⟨hu, _⟩ := aliasData_facts huA
  have hm := matchMult_token hcs1 hcs2 hsep hd hu ht
  rw [reflexNormed_mult hm hu.1]

theorem multToken_classes {cs ds fs u t : List Char} {sep : Char}
    (hcs2 : ∀ c ∈ cs, isAsciiDigit c = true) (hsep : sep = 'x' ∨ sep = '*')
    (hd : decimalDigitsOK ds fs) (hlow : ∀ c ∈ u, isAsciiLower c = true)
    (htc : ∀ c ∈ t, isAsciiDigit c = true ∨ isAsciiLower c = true ∨ c = '.' ∨ c = 'x' ∨ c = '*') :
    ∀ c ∈ multToken cs sep ds fs u t,
      isAsciiDigit c = true ∨ isAsciiLower c = true ∨ c = '.' ∨ c = 'x' ∨ c = '*' := by
  intro c hc
  unfold multToken at hc
  rw [List.mem_append, List.mem_cons] at hc
  rcases hc with hc | hc | hc
  · exact Or.inl (hcs2 c hc)
  · rcases hsep with e | e <;> subst e <;> subst hc <;> tauto
  · exact singleToken_classes hd hlow htc c hc

/-- Evaluating `groupVal` on concrete digit groups. -/
theorem groupVal_eval {ds fs : List Char} {a b k : ℕ} (h1 : digitsToNat ds = a)
    (h2 : digitsToNat fs = b) (h3 : fs.length = k) :
    groupVal (ds, fs) = (a : ℚ) + (b : ℚ) / 10 ^ k := by
  unfold groupVal
  rw [show (ds, fs).1 = ds from rfl, show (ds, fs).2 = fs from rfl, h1, h2, h3]

/-! ## The claims -/

/-- Claim C1: for every count (non-empty ASCII digit string), amount
(non-empty digit string with optional dot-and-digits fraction), separator
`x` or `*`, and unit that is an alias of the unit table with factor `f`,
`parse_quantity` on `<count><sep><amount><unit>` succeeds and returns the
mass count × amount × f grams, with an empty error message.  The factors
recorded in `unitFactor` are 1000 for the kg aliases, 1 for the g/gm
aliases, 1/1000 for the mg aliases, 1000 for the litre aliases and 1 for
the millilitre aliases. -/
theorem claim_C1_mult_format (cs ds fs : List Char) (sep : Char) (u : String) (f : ℚ)
    (hcs1 : cs ≠ []) (hcs2 : ∀ c ∈ cs, isAsciiDigit c = true)
    (hsep : sep = 'x' ∨ sep = '*') (hd : decimalDigitsOK ds fs)
    (hu : unitFactor u = some f) :
    PricingCalculator.parse_quantity (String.mk (multToken cs sep ds fs u.data [])) =
      (some ((digitsToNat cs : ℚ) * groupVal (ds, fs) * f), "") := by
  have huA := unitFactor_mem hu
  unfold PricingCalculator.parse_quantity
  rw [show (String.mk (multToken cs sep ds fs u.data [])).data
      = multToken cs sep ds fs u.data [] from rfl]
  rw [normQ_token_fixed
    (multToken_classes hcs2 hsep hd (aliasData_facts huA).1.2 (by simp))]
  rw [parseNormed_multToken (t := []) hcs1 hcs2 hsep hd huA rfl, convertToGrams_factor hu]

/-- Witness for C1 at the concrete input `"10x100g"`. -/
theorem claim_C1_mult_format_witness :
    PricingCalculator.parse_quantity
        (String.mk (multToken ['1', '0'] 'x' ['1', '0', '0'] [] "g".data [])) =
      (some ((digitsToNat ['1', '0'] : ℚ) * groupVal (['1', '0', '0'], []) * 1), "") :=
  claim_C1_mult_format ['1', '0'] ['1', '0', '0'] [] 'x' "g" 1 (by decide) (by decide)
    (Or.inl rfl) ⟨by decide, by decide, Or.inl rfl⟩ (by decide)

/-- Claim C5: every input whose normalised form is a bare decimal (digits
with an optional dot-separated fraction, no letters) is rejected with the
missing-unit message; in particular `parse_quantity "400"` is that error
and not a successful parse. -/
theorem claim_C5_pure_numeric :
    (∀ (s : String) (ds fs : List Char), decimalDigitsOK ds fs →
        normQ s.data = ds ++ fracPart fs →
        PricingCalculator.parse_quantity s = (none, msgMissingUnit))
    ∧ PricingCalculator.parse_quantity "400" = (none, msgMissingUnit) := by
  constructor
  · intro s ds fs hd hnorm
    unfold PricingCalculator.parse_quantity
    rw [hnorm, parseNormed_pure (isPureNumeric_decimal hd)]
  · decide

/-- Witness for C5 at the concrete input `"400"` (through the quantified
part). -/
theorem claim_C5_pure_numeric_witness :
    PricingCalculator.parse_quantity "400" = (none, msgMissingUnit) :=
  claim_C5_pure_numeric.1 "400" ['4', '0', '0'] []
    ⟨by decide, by decide, Or.inl rfl⟩ (by decide)

/-- Claim C9: the parser matches only a prefix of the normalised input.
Whenever the normalised form is a valid token (single or multiplication
format, unit in the table) followed by non-empty trailing text whose first
character is not a lower-case letter, parsing succeeds with the mass of
the leading token and silently ignores the trailing text. -/
theorem claim_C9_prefix_match :
    (∀ (s : String) (ds fs t : List Char) (u : String) (f : ℚ),
        decimalDigitsOK ds fs → unitFactor u = some f →
        headNot isAsciiLower t = true → t ≠ [] →
        normQ s.data = singleToken ds fs u.data t →
        PricingCalculator.parse_quantity s = (some (groupVal (ds, fs) * f), ""))
    ∧ (∀ (s : String) (cs ds fs t : List Char) (sep : Char) (u : String) (f : ℚ),
        cs ≠ [] → (∀ c ∈ cs, isAsciiDigit c = true) → (sep = 'x' ∨ sep = '*') →
        decimalDigitsOK ds fs → unitFactor u = some f →
        headNot isAsciiLower t = true → t ≠ [] →
        normQ s.data = multToken cs sep ds fs u.data t →
        PricingCalculator.parse_quantity s =
          (some ((digitsToNat cs : ℚ) * groupVal (ds, fs) * f), "")) := by
  constructor
  · intro s ds fs t u f hd hu ht htne hnorm
    unfold PricingCalculator.parse_quantity
    rw [hnorm, parseNormed_singleToken hd (unitFactor_mem hu) ht, convertToGrams_factor hu]
  · intro s cs ds fs t sep u f hcs1 hcs2 hsep hd hu ht htne hnorm
    unfold PricingCalculator.parse_quantity
    rw [hnorm, parseNormed_multToken hcs1 hcs2 hsep hd (unitFactor_mem hu) ht,
      convertToGrams_factor hu]

/-- Witness for C9 at the concrete input `"400g5"` (trailing `5` ignored). -/
theorem claim_C9_prefix_match_witness :
    PricingCalculator.parse_quantity "400g5" = (some (groupVal (['4', '0', '0'], []) * 1), "") :=
  claim_C9_prefix_match.1 "400g5" ['4', '0', '0'] [] ['5'] "g" 1
    ⟨by decide, by decide, Or.inl rfl⟩ (by decide) (by decide) (by decide) (by decide)

theorem reflexNormed_single_empty {cs : List Char} {amount : List Char × List Char}
    {rest : List Char} (h1 : matchMult cs = none)
    (h2 : matchSingle cs = some (amount, [], rest)) :
    PricingState.parseNormed cs = PricingState.convertToGrams (groupVal amount) "g" := by
  simp [PricingState.parseNormed, h1, h2]

/-- Claim C10: on every explicit weight-unit token (single or
multiplication format with a kg/g/mg-family alias) the Flask parser and
the Reflex parser return the same mass; they diverge on missing units
(`"400"`), on the `gm` alias (`"5gm"`), and on volume units (`"2l"`). -/
theorem claim_C10_parsers_agree :
    (∀ (ds fs : List Char) (u : String), decimalDigitsOK ds fs → u ∈ weightAliases →
        ∃ m, PricingCalculator.parse_quantity (String.mk (singleToken ds fs u.data [])) =
              (some m, "")
          ∧ PricingState.parse_quantity (String.mk (singleToken ds fs u.data [])) = some m)
    ∧ (∀ (cs ds fs : List Char) (sep : Char) (u : String),
        cs ≠ [] → (∀ c ∈ cs, isAsciiDigit c = true) → (sep = 'x' ∨ sep = '*') →
        decimalDigitsOK ds fs → u ∈ weightAliases →
        ∃ m, PricingCalculator.parse_quantity
                (String.mk (multToken cs sep ds fs u.data [])) = (some m, "")
          ∧ PricingState.parse_quantity (String.mk (multToken cs sep ds fs u.data [])) = some m)
    ∧ PricingCalculator.parse_quantity "400" = (none, msgMissingUnit)
    ∧ (PricingState.parse_quantity "400" = some 400)
    ∧ PricingCalculator.parse_quantity "5gm" = (some 5, "")
    ∧ PricingState.parse_quantity "5gm" = none
    ∧ PricingCalculator.parse_quantity "2l" = (some 2000, "")
    ∧ PricingState.parse_quantity "2l" = none := by
  refine ⟨?_, ?_, by decide, ?_, ?_, by decide, ?_, by decide⟩
  · intro ds fs u hd hw
    obtain ⟨f, hf, hr⟩ := reflex_flask_agree hw (groupVal (ds, fs))
    have huA := weightAlias_sub hw
    refine ⟨groupVal (ds, fs) * f, ?_, ?_⟩
    · unfold PricingCalculator.parse_quantity
      rw [show (String.mk (singleToken ds fs u.data [])).data
          = singleToken ds fs u.data [] from rfl]
      rw [normQ_token_fixed (singleToken_classes hd (aliasData_facts huA).1.2 (by simp))]
      rw [parseNormed_singleToken (t := []) hd huA rfl, convertToGrams_factor hf]
    · unfold PricingState.parse_quantity
      rw [show (String.mk (singleToken ds fs u.data [])).data
          = singleToken ds fs u.data [] from rfl]
      rw [normQ_token_fixed (singleToken_classes hd (aliasData_facts huA).1.2 (by simp))]
      rw [reflexNormed_singleToken (t := []) hd huA rfl, hr]
  · intro cs ds fs sep u hcs1 hcs2 hsep hd hw
    obtain ⟨f, hf, hr⟩ := reflex_flask_agree hw ((digitsToNat cs : ℚ) * groupVal (ds, fs))
    have huA := weightAlias_sub hw
    refine ⟨(digitsToNat cs : ℚ) * groupVal (ds, fs) * f, ?_, ?_⟩
    · unfold PricingCalculator.parse_quantity
      rw [show (String.mk (multToken cs sep ds fs u.data [])).data
          = multToken cs sep ds fs u.data [] from rfl]
      rw [normQ_token_fixed
        (multToken_classes hcs2 hsep hd (aliasData_facts huA).1.2 (by simp))]
      rw [parseNormed_multToken (t := []) hcs1 hcs2 hsep hd huA rfl, convertToGrams_factor hf]
    · unfold PricingState.parse_quantity
      rw [show (String.mk (multToken cs sep ds fs u.data [])).data
          = multToken cs sep ds fs u.data [] from rfl]
      rw [normQ_token_fixed
        (multToken_classes hcs2 hsep hd (aliasData_facts huA).1.2 (by simp))]
      rw [reflexNormed_multToken (t := []) hcs1 hcs2 hsep hd huA rfl]
      exact hr
  · -- PricingState.parse_quantity "400" = some 400
    unfold PricingState.parse_quantity
    rw [show normQ "400".data = ['4', '0', '0'] from by decide]
    rw [@reflexNormed_single_empty ['4', '0', '0'] (['4', '0', '0'], []) []
      (by decide) (by decide)]
    rw [PricingState.convertToGrams, if_neg (by decide), if_pos (by decide)]
    rw [groupVal_eval (a := 400) (b := 0) (k := 0) (by decide) (by decide) (by decide)]
    norm_num
  · -- PricingCalculator.parse_quantity "5gm" = (some 5, "")
    unfold PricingCalculator.parse_quantity
    rw [show normQ "5gm".data = ['5', 'g', 'm'] from by decide]
    rw [@parseNormed_single ['5', 'g', 'm'] (['5'], []) ['g', 'm'] []
      (by decide) (by decide) (by decide) (by decide)]
    rw [convertToGrams_factor (f := 1) (by decide)]
    rw [groupVal_eval (a := 5) (b := 0) (k := 0) (by decide) (by decide) (by decide)]
    norm_num
  · -- PricingCalculator.parse_quantity "2l" = (some 2000, "")
    unfold PricingCalculator.parse_quantity
    rw [show normQ "2l".data = ['2', 'l'] from by decide]
    rw [@parseNormed_single ['2', 'l'] (['2'], []) ['l'] []
      (by decide) (by decide) (by decide) (by decide)]
    rw [convertToGrams_factor (f := 1000) (by decide)]
    rw [groupVal_eval (a := 2) (b := 0) (k := 0) (by decide) (by decide) (by decide)]
    norm_num

/-- Witness for C10 at the concrete input `"1.5kg"`. -/
theorem claim_C10_parsers_agree_witness :
    ∃ m, PricingCalculator.parse_quantity
          (String.mk (singleToken ['1'] ['5'] "kg".data [])) = (some m, "")
      ∧ PricingState.parse_quantity (String.mk (singleToken ['1'] ['5'] "kg".data [])) = some m :=
  claim_C10_parsers_agree.1 ['1'] ['5'] "kg"
    ⟨by decide, by decide, Or.inr ⟨by decide, by decide⟩⟩ (by decide)

/-! ### Evaluating `pyFloat` and `parse_quantity` on concrete inputs -/

theorem partsVal_pos_noexp {ds fs : List Char} {a b k : ℕ} (h1 : digitsToNat ds = a)
    (h2 : digitsToNat fs = b) (h3 : fs.length = k) :
    partsVal ⟨false, ds, fs, false, []⟩ = (a : ℚ) + (b : ℚ) / 10 ^ k := by
  unfold partsVal
  simp only [h1, h2, h3, Bool.false_eq_true, if_false]
  rw [show digitsToNat [] = 0 from rfl]
  norm_num

theorem pyFloat_digits {s : String} {ds : List Char} {a : ℕ}
    (hscan : pyFloatScan s = some ⟨false, ds, [], false, []⟩) (ha : digitsToNat ds = a) :
    pyFloat s = some (a : ℚ) := by
  unfold pyFloat
  rw [hscan]
  show some (partsVal ⟨false, ds, [], false, []⟩) = _
  rw [@partsVal_pos_noexp ds [] a 0 0 ha rfl rfl]
  norm_num

theorem pyFloat_1000 : pyFloat "1000" = some 1000 := by
  have h := @pyFloat_digits "1000" ['1', '0', '0', '0'] 1000 (by decide) (by decide)
  simpa using h

theorem pyFloat_200 : pyFloat "200" = some 200 := by
  have h := @pyFloat_digits "200" ['2', '0', '0'] 200 (by decide) (by decide)
  simpa using h

theorem pyFloat_8 : pyFloat "8" = some 8 := by
  have h := @pyFloat_digits "8" ['8'] 8 (by decide) (by decide)
  simpa using h

theorem pyFloat_1 : pyFloat "1" = some 1 := by
  have h := @pyFloat_digits "1" ['1'] 1 (by decide) (by decide)
  simpa using h

theorem parse_val_10x100g : PricingCalculator.parse_quantity "10x100g" = (some 1000, "") := by
  unfold PricingCalculator.parse_quantity
  rw [show normQ "10x100g".data = ['1', '0', 'x', '1', '0', '0', 'g'] from by decide]
  rw [@parseNormed_mult ['1', '0', 'x', '1', '0', '0', 'g'] ['1', '0'] (['1', '0', '0'], [])
    ['g'] [] (by decide) (by decide) (by decide)]
  rw [convertToGrams_factor (f := 1) (by decide)]
  rw [groupVal_eval (a := 100) (b := 0) (k := 0) (by decide) (by decide) (by decide)]
  norm_num [show digitsToNat ['1', '0'] = 10 from by decide]

theorem parse_val_2l : PricingCalculator.parse_quantity "2l" = (some 2000, "") := by
  unfold PricingCalculator.parse_quantity
  rw [show normQ "2l".data = ['2', 'l'] from by decide]
  rw [@parseNormed_single ['2', 'l'] (['2'], []) ['l'] []
    (by decide) (by decide) (by decide) (by decide)]
  rw [convertToGrams_factor (f := 1000) (by decide)]
  rw [groupVal_eval (a := 2) (b := 0) (k := 0) (by decide) (by decide) (by decide)]
  norm_num

theorem parse_val_3g : PricingCalculator.parse_quantity "3g" = (some 3, "") := by
  unfold PricingCalculator.parse_quantity
  rw [show normQ "3g".data = ['3', 'g'] from by decide]
  rw [@parseNormed_single ['3', 'g'] (['3'], []) ['g'] []
    (by decide) (by decide) (by decide) (by decide)]
  rw [convertToGrams_factor (f := 1) (by decide)]
  rw [groupVal_eval (a := 3) (b := 0) (k := 0) (by decide) (by decide) (by decide)]
  norm_num

theorem parse_val_4g : PricingCalculator.parse_quantity "4g" = (some 4, "") := by
  unfold PricingCalculator.parse_quantity
  rw [show normQ "4g".data = ['4', 'g'] from by decide]
  rw [@parseNormed_single ['4', 'g'] (['4'], []) ['g'] []
    (by decide) (by decide) (by decide) (by decide)]
  rw [convertToGrams_factor (f := 1) (by decide)]
  rw [groupVal_eval (a := 4) (b := 0) (k := 0) (by decide) (by decide) (by decide)]
  norm_num

theorem parse_val_5g : PricingCalculator.parse_quantity "5g" = (some 5, "") := by
  unfold PricingCalculator.parse_quantity
  rw [show normQ "5g".data = ['5', 'g'] from by decide]
  rw [@parseNormed_single ['5', 'g'] (['5'], []) ['g'] []
    (by decide) (by decide) (by decide) (by decide)]
  rw [convertToGrams_factor (f := 1) (by decide)]
  rw [groupVal_eval (a := 5) (b := 0) (k := 0) (by decide) (by decide) (by decide)]
  norm_num

/-- Claim C2: the six validations of `calculate_pricing` run in the fixed
order (blank name, blank quantity, blank price, non-numeric price, parser
failure propagated verbatim, non-positive mass); the first failing check
determines the outcome and later checks are not consulted. -/
theorem claim_C2_validation_order (n q p : String) :
    (pyStrip n = "" → PricingCalculator.calculate_pricing n q p =
        failureResult n "Please enter an ingredient name.")
    ∧ (pyStrip n ≠ "" → pyStrip q = "" → PricingCalculator.calculate_pricing n q p =
        failureResult n "Please enter a quantity.")
    ∧ (pyStrip n ≠ "" → pyStrip q ≠ "" → pyStrip p = "" →
        PricingCalculator.calculate_pricing n q p = failureResult n "Please enter a price.")
    ∧ (pyStrip n ≠ "" → pyStrip q ≠ "" → pyStrip p ≠ "" → pyFloat p = none →
        PricingCalculator.calculate_pricing n q p = failureResult n "Please enter a valid price.")
    ∧ (∀ (pr : ℚ) (e : String), pyStrip n ≠ "" → pyStrip q ≠ "" → pyStrip p ≠ "" →
        pyFloat p = some pr → PricingCalculator.parse_quantity q = (none, e) →
        PricingCalculator.calculate_pricing n q p = failureResult n e)
    ∧ (∀ (pr m : ℚ) (e : String), pyStrip n ≠ "" → pyStrip q ≠ "" → pyStrip p ≠ "" →
        pyFloat p = some pr → PricingCalculator.parse_quantity q = (some m, e) → m ≤ 0 →
        PricingCalculator.calculate_pricing n q p =
          failureResult n "Quantity must be greater than zero.") := by
  refine ⟨calc_blank_name, calc_blank_qty, calc_blank_price, calc_bad_price, ?_, ?_⟩
  · intro pr e h1 h2 h3 h4 h5
    exact calc_parse_error h1 h2 h3 h4 h5
  · intro pr m e h1 h2 h3 h4 h5 h6
    exact calc_nonpos h1 h2 h3 h4 h5 h6

/-- Witness for C2: a blank name wins over every later defect. -/
theorem claim_C2_validation_order_witness :
    PricingCalculator.calculate_pricing " " "abc" "xyz" =
      failureResult " " "Please enter an ingredient name." :=
  (claim_C2_validation_order " " "abc" "xyz").1 (by decide)

/-- Claim C3: when all validations pass, the success result is exactly
kg = round(price/m × 1000, 2), g = round(price/m, 4),
mg = round(price/m / 1000, 6); concretely
`calculate_pricing "Rice" "10x100g" "1000"` gives
{kg 1000, g 1, mg 0.001} and `calculate_pricing "Oil" "2l" "200"` gives
{kg 100, g 0.1, mg 0.0001}. -/
theorem claim_C3_success_formula :
    (∀ (n q p : String) (pr m : ℚ) (e : String),
        pyStrip n ≠ "" → pyStrip q ≠ "" → pyStrip p ≠ "" →
        pyFloat p = some pr → PricingCalculator.parse_quantity q = (some m, e) → 0 < m →
        PricingCalculator.calculate_pricing n q p =
          { success := true, error := ""
            results := some
              { kg := pyRound (pr / m * 1000) 2
                g := pyRound (pr / m) 4
                mg := pyRound (pr / m / 1000) 6 }
            ingredient_name := n })
    ∧ PricingCalculator.calculate_pricing "Rice" "10x100g" "1000" =
        { success := true, error := ""
          results := some { kg := 1000, g := 1, mg := 1 / 1000 }
          ingredient_name := "Rice" }
    ∧ PricingCalculator.calculate_pricing "Oil" "2l" "200" =
        { success := true, error := ""
          results := some { kg := 100, g := 1 / 10, mg := 1 / 10000 }
          ingredient_name := "Oil" } := by
  refine ⟨?_, ?_, ?_⟩
  · intro n q p pr m e h1 h2 h3 h4 h5 h6
    exact calc_success h1 h2 h3 h4 h5 h6
  · rw [calc_success (by decide) (by decide) (by decide) pyFloat_1000 parse_val_10x100g
      (by norm_num)]
    simp only [PricingResult.mk.injEq, Option.some.injEq, UnitPriceResult.mk.injEq,
      and_true, true_and]
    refine ⟨?_, ?_, ?_⟩
    · rw [pyRound_down (f := 100000) (by norm_num) (by norm_num)]
      norm_num
    · rw [pyRound_down (f := 10000) (by norm_num) (by norm_num)]
      norm_num
    · rw [pyRound_down (f := 1000) (by norm_num) (by norm_num)]
      norm_num
  · rw [calc_success (by decide) (by decide) (by decide) pyFloat_200 parse_val_2l
      (by norm_num)]
    simp only [PricingResult.mk.injEq, Option.some.injEq, UnitPriceResult.mk.injEq,
      and_true, true_and]
    refine ⟨?_, ?_, ?_⟩
    · rw [pyRound_down (f := 10000) (by norm_num) (by norm_num)]
      norm_num
    · rw [pyRound_down (f := 1000) (by norm_num) (by norm_num)]
      norm_num
    · rw [pyRound_down (f := 100) (by norm_num) (by norm_num)]
      norm_num

/-- Witness for C3 through the quantified part, at `("A", "4g", "8")`. -/
theorem claim_C3_success_formula_witness :
    PricingCalculator.calculate_pricing "A" "4g" "8" =
      { success := true, error := ""
        results := some
          { kg := pyRound ((8 : ℚ) / 4 * 1000) 2
            g := pyRound ((8 : ℚ) / 4) 4
            mg := pyRound ((8 : ℚ) / 4 / 1000) 6 }
        ingredient_name := "A" } :=
  claim_C3_success_formula.1 "A" "4g" "8" 8 4 "" (by decide) (by decide) (by decide)
    pyFloat_8 parse_val_4g (by norm_num)

/-- Counterexample to claim C4 as stated: on the valid triple
`("A", "3g", "1")` the calculation succeeds, but the rounded kg figure is
not 1000 times the rounded g figure (333.33 vs 333.3), and the rounded g
figure is not 1000 times the rounded mg figure — rounding each scaling
separately breaks the exact relations. -/
theorem claim_C4_scaling_counterexample :
    (PricingCalculator.calculate_pricing "A" "3g" "1").success = true
    ∧ (PricingCalculator.calculate_pricing "A" "3g" "1").results =
        some { kg := 33333 / 100, g := 3333 / 10000, mg := 333 / 1000000 }
    ∧ ¬ ((33333 : ℚ) / 100 = 1000 * (3333 / 10000))
    ∧ ¬ ((3333 : ℚ) / 10000 = 1000 * (333 / 1000000)) := by
  have hc := calc_success (n := "A") (q := "3g") (p := "1") (by decide) (by decide)
    (by decide) pyFloat_1 parse_val_3g (by norm_num)
  refine ⟨by rw [hc], ?_, by norm_num, by norm_num⟩
  rw [hc]
  show some _ = some _
  simp only [Option.some.injEq, UnitPriceResult.mk.injEq]
  refine ⟨?_, ?_, ?_⟩
  · rw [pyRound_down (f := 33333) (by norm_num) (by norm_num)]
    norm_num
  · rw [pyRound_down (f := 3333) (by norm_num) (by norm_num)]
    norm_num
  · rw [pyRound_down (f := 333) (by norm_num) (by norm_num)]
    norm_num

/-- Claim C4, amended: in every successful result the three figures are
the per-unit roundings of the scalings of one underlying price-per-gram
value, and the exact scaling relations (kg = pg×1000, g = pg, mg =
pg/1000) hold for the values before rounding; after rounding the relations
may fail (see the counterexample). -/
theorem claim_C4_scaling_amended (n q p : String) (pr m : ℚ) (e : String)
    (h1 : pyStrip n ≠ "") (h2 : pyStrip q ≠ "") (h3 : pyStrip p ≠ "")
    (h4 : pyFloat p = some pr) (h5 : PricingCalculator.parse_quantity q = (some m, e))
    (h6 : 0 < m) :
    ∃ pg, (PricingCalculator.calculate_pricing n q p).results =
        some { kg := pyRound (pg * 1000) 2, g := pyRound pg 4, mg := pyRound (pg / 1000) 6 }
      ∧ pg * 1000 = 1000 * pg ∧ pg = 1000 * (pg / 1000) := by
  refine ⟨pr / m, ?_, by ring, by ring⟩
  rw [calc_success h1 h2 h3 h4 h5 h6]

/-- Witness for the amended C4 at `("A", "4g", "8")`. -/
theorem claim_C4_scaling_amended_witness :
    ∃ pg, (PricingCalculator.calculate_pricing "A" "4g" "8").results =
        some { kg := pyRound (pg * 1000) 2, g := pyRound pg 4, mg := pyRound (pg / 1000) 6 }
      ∧ pg * 1000 = 1000 * pg ∧ pg = 1000 * (pg / 1000) :=
  claim_C4_scaling_amended "A" "4g" "8" 8 4 "" (by decide) (by decide) (by decide)
    pyFloat_8 parse_val_4g (by norm_num)

/-- Generic wrapper of the parser invariant at the `parse_quantity`
level. -/
theorem parse_quantity_invariant (s : String) :
    (∃ g, PricingCalculator.parse_quantity s = (some g, "") ∧ 0 ≤ g)
    ∨ ((PricingCalculator.parse_quantity s).1 = none ∧
        (PricingCalculator.parse_quantity s).2 ≠ "") :=
  parseNormed_invariant (normQ s.data)

theorem one_zeros_digits (k : ℕ) :
    ∀ c ∈ '1' :: List.replicate k '0', isAsciiDigit c = true := by
  intro c hc
  rw [List.mem_cons] at hc
  rcases hc with e | hc
  · subst e
    decide
  · rw [List.eq_of_mem_replicate hc]
    decide

theorem digitsToNat_one_zeros (k : ℕ) :
    digitsToNat ('1' :: List.replicate k '0') = 10 ^ k := by
  have h : ∀ (j a : ℕ),
      List.foldl (fun a c => 10 * a + (c.toNat - 48)) a (List.replicate j '0') =
        10 ^ j * a := by
    intro j
    induction j with
    | zero => intro a; simp
    | succ n ih =>
      intro a
      rw [List.replicate_succ, List.foldl_cons, ih]
      rw [show '0'.toNat - 48 = 0 from by decide]
      ring
  unfold digitsToNat
  rw [List.foldl_cons, h k]
  rw [show 10 * 0 + ('1'.toNat - 48) = 1 from by decide, mul_one]

/-- Claim C6, code-bug evidence: on the 310-digit quantity
`"1" ++ "0"*309 ++ "g"` the parser's branch structure succeeds with an
empty error, and the exact value `float(...)` is asked to produce for the
amount group is 10^309 — strictly above the largest finite IEEE-754
double, 2^1024 − 2^971 (≈ 1.8 × 10^308).  CPython's `float(...)`
therefore saturates to `inf` on this group, so the real `parse_quantity`
returns a present, infinite mass with an empty error — violating the
claimed finiteness of every present mass (the exactly-one-of and
non-negativity parts of the invariant do hold; see
`parse_quantity_invariant`). -/
theorem claim_C6_float_overflow :
    ∃ m, PricingCalculator.parse_quantity
          (String.mk (singleToken ('1' :: List.replicate 309 '0') [] "g".data [])) =
        (some m, "")
      ∧ ((2 : ℚ) ^ 1024 - 2 ^ 971) < m := by
  have hd : decimalDigitsOK ('1' :: List.replicate 309 '0') [] :=
    ⟨List.cons_ne_nil _ _, one_zeros_digits 309, Or.inl rfl⟩
  refine ⟨groupVal ('1' :: List.replicate 309 '0', []) * 1, ?_, ?_⟩
  · unfold PricingCalculator.parse_quantity
    rw [show (String.mk (singleToken ('1' :: List.replicate 309 '0') [] "g".data [])).data
        = singleToken ('1' :: List.replicate 309 '0') [] "g".data [] from rfl]
    rw [normQ_token_fixed
      (singleToken_classes (t := []) hd (aliasData_facts (by decide)).1.2 (by simp))]
    rw [parseNormed_singleToken (t := []) hd (by decide) rfl]
    rw [convertToGrams_factor (f := 1) (by decide)]
  · rw [@groupVal_eval ('1' :: List.replicate 309 '0') [] (10 ^ 309) 0 0
      (digitsToNat_one_zeros 309) rfl rfl, mul_one]
    push_cast
    norm_num

/-- Claim C7: both core operations are total functions of their string
inputs (all Python error conditions are returned as values, never
raised): `parse_quantity` always yields either a mass with empty error or
no mass with a non-empty message; `calculate_pricing` always yields either
a success with empty error or a failure with a non-empty message and no
results; and the unsupported-unit failure message contains the offending
unit. -/
theorem claim_C7_never_raises :
    (∀ s : String,
        ((PricingCalculator.parse_quantity s).1.isSome = true ∧
          (PricingCalculator.parse_quantity s).2 = "")
        ∨ ((PricingCalculator.parse_quantity s).1 = none ∧
          (PricingCalculator.parse_quantity s).2 ≠ ""))
    ∧ (∀ n q p : String,
        ((PricingCalculator.calculate_pricing n q p).success = true ∧
          (PricingCalculator.calculate_pricing n q p).error = "" ∧
          (PricingCalculator.calculate_pricing n q p).results.isSome = true)
        ∨ ((PricingCalculator.calculate_pricing n q p).success = false ∧
          (PricingCalculator.calculate_pricing n q p).error ≠ "" ∧
          (PricingCalculator.calculate_pricing n q p).results = none))
    ∧ (∀ (w : ℚ) (u : String), unitFactor u = none →
        (PricingCalculator.convertToGrams w u).1 = none ∧
        ∃ pre post, ((PricingCalculator.convertToGrams w u).2).data =
          pre ++ (u.data ++ post)) := by
  refine ⟨?_, ?_, ?_⟩
  · intro s
    rcases parse_quantity_invariant s with ⟨g, hg, _⟩ | ⟨h1, h2⟩
    · left
      rw [hg]
      exact ⟨rfl, rfl⟩
    · exact Or.inr ⟨h1, h2⟩
  · intro n q p
    by_cases h1 : pyStrip n = ""
    · right
      rw [calc_blank_name h1]
      exact ⟨rfl, (by decide : ("Please enter an ingredient name." : String) ≠ ""), rfl⟩
    by_cases h2 : pyStrip q = ""
    · right
      rw [calc_blank_qty h1 h2]
      exact ⟨rfl, (by decide : ("Please enter a quantity." : String) ≠ ""), rfl⟩
    by_cases h3 : pyStrip p = ""
    · right
      rw [calc_blank_price h1 h2 h3]
      exact ⟨rfl, (by decide : ("Please enter a price." : String) ≠ ""), rfl⟩
    cases h4 : pyFloat p with
    | none =>
      right
      rw [calc_bad_price h1 h2 h3 h4]
      exact ⟨rfl, (by decide : ("Please enter a valid price." : String) ≠ ""), rfl⟩
    | some pr =>
      rcases parse_quantity_invariant q with ⟨g, hg, _⟩ | ⟨hn, he⟩
      · by_cases h6 : g ≤ 0
        · right
          rw [calc_nonpos h1 h2 h3 h4 hg h6]
          exact ⟨rfl, (by decide : ("Quantity must be greater than zero." : String) ≠ ""), rfl⟩
        · left
          rw [calc_success h1 h2 h3 h4 hg (not_le.mp h6)]
          exact ⟨rfl, rfl, rfl⟩
      · right
        have hq : PricingCalculator.parse_quantity q =
            (none, (PricingCalculator.parse_quantity q).2) := by
          rw [← hn]
        rw [calc_parse_error h1 h2 h3 h4 hq]
        exact ⟨rfl, he, rfl⟩
  · intro w u hu
    rw [convertToGrams_unsupported hu w]
    exact ⟨rfl, msgUnsupportedUnit_names u⟩

/-- Witness for C7 through its third conjunct: the message for the unknown
unit `zz` contains `zz`. -/
theorem claim_C7_never_raises_witness :
    (PricingCalculator.convertToGrams 5 "zz").1 = none ∧
    ∃ pre post, ((PricingCalculator.convertToGrams 5 "zz").2).data =
      pre ++ ("zz".data ++ post) :=
  claim_C7_never_raises.2.2 5 "zz" (by decide)

/-! ### Bulk-row facts for C8 -/

/-- A row whose pricing cell is not a string is always processed to an
outcome: no branch of the loop body can raise. -/
theorem processRow_ok {r : Row} (h : r.price.isStr = false) :
    ∃ o, processRow r = Except.ok o := by
  obtain ⟨name, qty, price⟩ := r
  unfold processRow
  cases price with
  | str s2 => exact absurd h (by simp [Cell.isStr])
  | num p =>
    simp only []
    split
    · exact ⟨_, rfl⟩
    · split
      · exact ⟨_, rfl⟩
      · split
        · exact ⟨_, rfl⟩
        · exact ⟨_, rfl⟩
  | nan =>
    simp only []
    split
    · exact ⟨_, rfl⟩
    · split
      · exact ⟨_, rfl⟩
      · split
        · exact ⟨_, rfl⟩
        · exact ⟨_, rfl⟩

/-- When every row is processable, the loop returns one outcome per row,
in order, and the i-th outcome is a function of the i-th row alone. -/
theorem processRows_ok {rows : List Row}
    (h : ∀ r ∈ rows, ∃ o, processRow r = Except.ok o) :
    ∃ outs, processRows rows = Except.ok outs ∧ outs.length = rows.length
      ∧ ∀ i, outs.get? i = (rows.get? i).bind (fun r => (processRow r).toOption) := by
  induction rows with
  | nil => exact ⟨[], rfl, rfl, fun i => by cases i <;> rfl⟩
  | cons r rs ih =>
    obtain ⟨o, ho⟩ := h r (by simp)
    obtain ⟨outs, h1, h2, h3⟩ := ih (fun x hx => h x (by simp [hx]))
    refine ⟨o :: outs, ?_, by simp [h2], ?_⟩
    · unfold processRows
      rw [ho, h1]
    · intro i
      cases i with
      | zero => simp [ho, Except.toOption]
      | succ k => simpa using h3 k

/-- Evaluating one loop iteration on a row with a parseable quantity and a
string pricing cell: the division `pricing / total_grams` raises
`TypeError` and the iteration aborts the loop. -/
theorem processRow_typeError {name q s2 : String} {g : ℚ} {e : String}
    (hq : pyStrip q ≠ "")
    (hq2 : pyLower (pyStrip q) ∉ (["nan", "none", ""] : List String))
    (hp : PricingCalculator.parse_quantity (pyStrip q) = (some g, e)) (hg : 0 < g) :
    processRow ⟨name, some q, Cell.str s2⟩ =
      Except.error "TypeError: unsupported operand type(s) for /: str and float" := by
  unfold processRow
  simp only [hp]
  rw [if_neg (by simp [hq, hq2]), if_pos hg]

/-- Counterexample to claim C8 as stated: a two-row batch (well inside the
row limit) whose second row has a well-formed quantity but a non-numeric
pricing cell does not produce one outcome per row — the whole upload
fails with a single error. -/
theorem claim_C8_batch_abort_counterexample :
    upload_file
        [⟨"Rice", some "5g", Cell.num 10⟩, ⟨"Oil", some "5g", Cell.str "abc"⟩] =
      Except.error "TypeError: unsupported operand type(s) for /: str and float" := by
  have hparse : PricingCalculator.parse_quantity (pyStrip "5g") = (some 5, "") := by
    rw [show pyStrip "5g" = "5g" from by decide]
    exact parse_val_5g
  have h2 : processRow ⟨"Oil", some "5g", Cell.str "abc"⟩ =
      Except.error "TypeError: unsupported operand type(s) for /: str and float" :=
    processRow_typeError (by decide) (by decide) hparse (by norm_num)
  obtain ⟨o, ho⟩ := processRow_ok
    (r := ⟨"Rice", some "5g", Cell.num 10⟩) (by simp [Cell.isStr])
  unfold upload_file
  rw [if_neg (by decide)]
  unfold processRows
  rw [ho]
  unfold processRows
  rw [h2]

/-- Claim C8, amended: within the row limit, and as long as no pricing
cell holds a string, the endpoint returns exactly one outcome per row,
the i-th outcome depending only on the i-th row — so a row whose quantity
cell is missing or malformed yields a failure outcome for that row only.
A row with a parseable positive quantity and a string pricing cell instead
raises and aborts the whole batch (see the counterexample). -/
theorem claim_C8_row_isolation_amended (rows : List Row)
    (hlim : rows.length ≤ 1000) (hnum : ∀ r ∈ rows, r.price.isStr = false) :
    (∀ r ∈ rows, ∃ o, processRow r = Except.ok o)
    ∧ ∃ outs, upload_file rows = Except.ok outs ∧ outs.length = rows.length
        ∧ ∀ i, outs.get? i = (rows.get? i).bind (fun r => (processRow r).toOption) := by
  have hall : ∀ r ∈ rows, ∃ o, processRow r = Except.ok o :=
    fun r hr => processRow_ok (hnum r hr)
  obtain ⟨outs, h1, h2, h3⟩ := processRows_ok hall
  refine ⟨hall, outs, ?_, h2, h3⟩
  unfold upload_file
  rw [if_neg (by omega), h1]

/-- Witness for the amended C8 on a concrete two-row batch with one
malformed-quantity row. -/
theorem claim_C8_row_isolation_amended_witness :
    (∀ r ∈ [(⟨"Rice", some "5g", Cell.num 10⟩ : Row), ⟨"Oil", some "abc", Cell.num 7⟩],
        ∃ o, processRow r = Except.ok o)
    ∧ ∃ outs, upload_file
          [(⟨"Rice", some "5g", Cell.num 10⟩ : Row), ⟨"Oil", some "abc", Cell.num 7⟩] =
          Except.ok outs
        ∧ outs.length =
          [(⟨"Rice", some "5g", Cell.num 10⟩ : Row), ⟨"Oil", some "abc", Cell.num 7⟩].length
        ∧ ∀ i, outs.get? i =
            ([(⟨"Rice", some "5g", Cell.num 10⟩ : Row),
              ⟨"Oil", some "abc", Cell.num 7⟩].get? i).bind
              (fun r => (processRow r).toOption) :=
  claim_C8_row_isolation_amended
    [⟨"Rice", some "5g", Cell.num 10⟩, ⟨"Oil", some "abc", Cell.num 7⟩]
    (by decide) (by decide)

